import Mathlib

/-!
Verification of the Quantis asynchronous decision-analysis job orchestrator.

The definitions below are a shallow embedding of the TypeScript source:

* the `analyses` table rows (`AnalysisRecord`) and the partial-field update
  semantics of the record store (`WriteOp`, `applyWrite`);
* the resume endpoint `POST /api/decisions/analyze/[id]/continue`
  (`continueRoute`) and the background relaunch it triggers
  (`continueTaskWrites`, `continueTaskPayload`);
* the launch endpoint `POST /api/decisions/analyze/stream` (`streamRoute`)
  and its background task (`launchWrites`, `launchRunWrites`);
* the externally-driven write path
  `POST /api/decisions/analyze/[id]/update-status` (`updateStatusRoute`);
* the status read `GET /api/decisions/analyze/[id]/status` (`statusRoute`);
* the hypothesis diff guard of `CFOAssistant.handleSubmit`
  (`hypothesesChanged`, `relaunchIssued`);
* the tab lifecycle operations of `TabsContext`
  (`closeTab`, `reopenTab`, `permanentlyDeleteTab`, `activeListing`).

Statuses are kept as the raw strings stored in the database
(`"pending"`, `"in_progress"`, `"waiting_for_data"`, `"completed"`,
`"error"`), exactly as the source writes them.
-/

namespace Quantis

/-- A JSON scalar value, as used for hypothesis values and supplied
missing-data values (`string | number` in the source; strict `!==`
comparison distinguishes the two kinds). -/
inductive JVal where
  | num (n : Int)
  | str (s : String)
  deriving DecidableEq, Repr

/-- One element of the `steps` JSONB column (interface `AnalysisStep`). -/
structure StepEntry where
  name : String
  label : String
  status : String
  message : String
  deriving DecidableEq, Repr

/-- One element of the `missing_data` JSONB column (interface `MissingData`):
`id`, value kind (`type` in the source), description and the required flag. -/
structure MissingDataItem where
  id : String
  kind : String
  description : String
  required : Bool
  deriving DecidableEq, Repr

/-- A row of the `analyses` table, restricted to the columns the
orchestrator reads and writes. `result` is kept opaque as the raw JSON
text of the final report (`none` models the empty object written at
creation). -/
structure AnalysisRecord where
  id : String
  user_id : String
  project_id : String
  question : String
  file_ids : List String
  status : String
  current_step : Option String
  progress : Int
  steps : List StepEntry
  missing_data : List MissingDataItem
  result : Option String
  deriving DecidableEq, Repr

/-- The `analyses` table. -/
abbrev DB := List AnalysisRecord

/-- `select(...).eq(id, analysisId).eq(user_id, userId).single()`:
the first row matching both filters. -/
def dbSelect (db : DB) (analysisId userId : String) : Option AnalysisRecord :=
  db.find? (fun r => r.id == analysisId && r.user_id == userId)

/-- `update(f).eq(id, analysisId)`: rewrite every row whose `id`
matches, leave the rest untouched. -/
def dbUpdateById (db : DB) (analysisId : String)
    (f : AnalysisRecord → AnalysisRecord) : DB :=
  db.map (fun r => if r.id == analysisId then f r else r)

/-- A partial-field write to one `analyses` row: exactly the named fields
are overwritten, absent fields are untouched (Supabase `update` payload
semantics). -/
structure WriteOp where
  status : Option String := none
  current_step : Option String := none
  progress : Option Int := none
  steps : Option (List StepEntry) := none
  missing_data : Option (List MissingDataItem) := none
  result : Option String := none
  deriving DecidableEq, Repr

/-- Apply one partial-field write to a row. -/
def applyWrite (r : AnalysisRecord) (w : WriteOp) : AnalysisRecord :=
  { r with
    status := w.status.getD r.status
    current_step := match w.current_step with
      | some s => some s
      | none => r.current_step
    progress := w.progress.getD r.progress
    steps := w.steps.getD r.steps
    missing_data := w.missing_data.getD r.missing_data
    result := match w.result with
      | some x => some x
      | none => r.result }

/-- Apply a sequence of partial-field writes in order. -/
def applyWrites (r : AnalysisRecord) (ws : List WriteOp) : AnalysisRecord :=
  ws.foldl applyWrite r

/-- The `missing_data` mapping supplied by the client on a resume
(`Record<string, any>` in the request body). -/
abbrev ProvidedData := List (String × JVal)

/-- The arguments the continue endpoint hands to its background relaunch
(`launchAnalysisAsync(analysisId, question, fileIds, providedData)`). -/
structure RelaunchRequest where
  analysis_id : String
  question : String
  file_ids : List String
  provided_data : ProvidedData
  deriving DecidableEq, Repr

/-- Outcome of `POST /api/decisions/analyze/[id]/continue`:
400 when the path parameter is falsy, 404 when the user-scoped select
finds no row, otherwise the success JSON plus the background relaunch
arguments. -/
inductive ContinueResult where
  | badRequest
  | notFound
  | success (relaunch : RelaunchRequest)
  deriving DecidableEq, Repr

/-- The field rewrite the continue endpoint issues on the selected row:
status `in_progress`, `missing_data` emptied, progress 20,
`current_step` set to `analyzing_structure`. -/
def continueUpdate (r : AnalysisRecord) : AnalysisRecord :=
  { r with
    status := "in_progress"
    missing_data := []
    progress := 20
    current_step := some "analyzing_structure" }

/-- The continue (resume) endpoint, `POST` of
`src/app/api/decisions/analyze/[id]/continue/route.ts`.  It verifies
ownership via a user-scoped select, then unconditionally rewrites the
row — the source performs no check of the current status and no check
that `missing_data` covers the required items. -/
def continueRoute (db : DB) (userId analysisId : String)
    (missing_data : ProvidedData) : DB × ContinueResult :=
  if analysisId == "" then
    (db, .badRequest)
  else
    match dbSelect db analysisId userId with
    | none => (db, .notFound)
    | some analysis =>
        (dbUpdateById db analysisId continueUpdate,
         .success { analysis_id := analysisId
                    question := analysis.question
                    file_ids := analysis.file_ids
                    provided_data := missing_data })

/-- Outcome of one call to the Python backend
(the `fetch` of the backend stream endpoint). -/
inductive BackendResp where
  | ok (result : String)
  | httpError (text : String)
  | malformed
  | netError
  deriving DecidableEq, Repr

/-- The JSON body the background task of the continue endpoint posts to the
Python backend. -/
structure BackendPayload where
  question : String
  file_ids : Option (List String)
  analysis_id : String
  provided_data : Option ProvidedData
  deriving DecidableEq, Repr

/-- The body built by `launchAnalysisAsync` in the continue route:
the original question, the original file ids (`undefined` when empty),
and the caller-supplied data. -/
def continueTaskPayload (req : RelaunchRequest) : BackendPayload :=
  { question := req.question
    file_ids := if req.file_ids.length > 0 then some req.file_ids else none
    analysis_id := req.analysis_id
    provided_data := some req.provided_data }

/-- The terminal write both error handlers issue:
status `error` and progress 0. -/
def errorWrite : WriteOp :=
  { status := some "error", progress := some 0 }

/-- The write sequence issued by the background task of the continue route
(`launchAnalysisAsync` of the continue route) for a given backend
outcome: one initial in-progress write, then either the completion
write or the error write; a non-ok HTTP response writes the error row
and then throws into the catch block, which writes it again. -/
def continueTaskWrites (resp : BackendResp) : List WriteOp :=
  [{ status := some "in_progress"
     current_step := some "analyzing_structure"
     progress := some 20 }] ++
  match resp with
  | .ok result =>
      [{ status := some "completed"
         current_step := some "creating_recommendations"
         progress := some 100
         result := some result }]
  | .httpError _ => [errorWrite, errorWrite]
  | .malformed => [errorWrite]
  | .netError => [errorWrite]

/-- A row of the `projects` table (columns the orchestrator touches). -/
structure ProjectRecord where
  id : String
  user_id : String
  deriving DecidableEq, Repr

/-- A row of the `files` table (columns the orchestrator touches). -/
structure FileRecord where
  id : String
  user_id : String
  project_id : String
  deriving DecidableEq, Repr

/-- The tables the launch endpoint reads and writes. -/
structure Stores where
  projects : List ProjectRecord
  files : List FileRecord
  analyses : DB
  deriving DecidableEq, Repr

/-- The parsed body of a launch request; `question := none` also models a
non-string value (the typeof guard in the source). -/
structure LaunchBody where
  question : Option String
  file_ids : Option (List String)
  project_id : Option String
  deriving DecidableEq, Repr

/-- The JSON returned on a successful launch. -/
structure LaunchResponse where
  analysis_id : String
  status : String
  current_step : String
  progress : Int
  steps : List StepEntry
  deriving DecidableEq, Repr

/-- Outcome of `POST /api/decisions/analyze/stream`: a 400 validation
rejection, a 403 ownership rejection, or the immediate 200 response. -/
inductive LaunchResult where
  | validationError (msg : String)
  | accessError (msg : String)
  | created (resp : LaunchResponse)
  deriving DecidableEq, Repr

/-- The six-step template inserted at creation (`initialSteps`), all
`pending`. -/
def initialSteps : List StepEntry :=
  [{ name := "analyzing_question", label := "Analyse de la question",
     status := "pending", message := "" },
   { name := "checking_files", label := "Vérification des fichiers disponibles",
     status := "pending", message := "" },
   { name := "analyzing_structure", label := "Analyse de la structure des données",
     status := "pending", message := "" },
   { name := "calculating_metrics", label := "Calcul des métriques clés",
     status := "pending", message := "" },
   { name := "generating_scenarios", label := "Génération des scénarios",
     status := "pending", message := "" },
   { name := "creating_recommendations", label := "Création des recommandations",
     status := "pending", message := "" }]

/-- True when the JS guard `!question` or the typeof test
fires: absent, non-string or empty question. -/
def questionInvalid (q : Option String) : Bool :=
  match q with
  | none => true
  | some s => s == ""

/-- True when the JS guard `!project_id` fires. -/
def projectIdInvalid (p : Option String) : Bool :=
  match p with
  | none => true
  | some s => s == ""

/-- The row the launch endpoint inserts (`pending`, progress 0, the
six-step template, empty `missing_data` and `result`). -/
def launchRecord (userId : String) (body : LaunchBody) (newId : String) :
    AnalysisRecord :=
  { id := newId
    user_id := userId
    project_id := body.project_id.getD ""
    question := body.question.getD ""
    file_ids := body.file_ids.getD []
    status := "pending"
    current_step := some "analyzing_question"
    progress := 0
    steps := initialSteps
    missing_data := []
    result := none }

/-- The launch endpoint, `POST` of
`src/app/api/decisions/analyze/stream/route.ts`, up to and including the
synchronous insert.  `newId` is the identifier the record store assigns
to the inserted row.  The endpoint fires the background task without
awaiting it, so the returned response is built from the inserted row
alone and is independent of any backend outcome. -/
def streamRoute (st : Stores) (userId : String) (body : LaunchBody)
    (newId : String) : Stores × LaunchResult :=
  if questionInvalid body.question then
    (st, .validationError "Question is required")
  else if projectIdInvalid body.project_id then
    (st, .validationError "Project ID is required")
  else
    let pid := body.project_id.getD ""
    match st.projects.find? (fun p => p.id == pid && p.user_id == userId) with
    | none => (st, .accessError "Project not found or access denied")
    | some _ =>
        let fids := body.file_ids.getD []
        let matched := st.files.filter
          (fun f => f.user_id == userId && f.project_id == pid && fids.contains f.id)
        if fids.length > 0 && matched.length != fids.length then
          (st, .accessError "Some files not found, access denied, or files belong to different project")
        else
          ({ st with analyses := st.analyses ++ [launchRecord userId body newId] },
           .created { analysis_id := newId
                      status := "pending"
                      current_step := "analyzing_question"
                      progress := 0
                      steps := initialSteps })

/-- The step template the launch background task starts from: first step
`in_progress` with its message, the rest `pending` with empty messages. -/
def taskSteps : List StepEntry :=
  [{ name := "analyzing_question", label := "Analyse de la question",
     status := "in_progress",
     message := "Analyse de la question et extraction des paramètres clés..." },
   { name := "checking_files", label := "Vérification des fichiers disponibles",
     status := "pending", message := "" },
   { name := "analyzing_structure", label := "Analyse de la structure des données",
     status := "pending", message := "" },
   { name := "calculating_metrics", label := "Calcul des métriques clés",
     status := "pending", message := "" },
   { name := "generating_scenarios", label := "Génération des scénarios",
     status := "pending", message := "" },
   { name := "creating_recommendations", label := "Création des recommandations",
     status := "pending", message := "" }]

/-- `steps.map((s, i) => ...)` at a stage boundary: step `k` becomes
`in_progress` with message `msg`, earlier steps `completed`, later steps
`pending`. -/
def stageSteps (k : Nat) (msg : String) : List StepEntry :=
  taskSteps.mapIdx (fun i s =>
    { s with
      status := if i == k then "in_progress"
                else if i < k then "completed" else "pending"
      message := if i == k then msg else s.message })

/-- The all-completed step list written on success (empty messages replaced). -/
def doneSteps : List StepEntry :=
  taskSteps.map (fun s =>
    { s with
      status := "completed"
      message := if s.message == "" then "Terminé" else s.message })

/-- The write sequence issued by the launch background task
(`launchAnalysisAsync` of the stream route) for a given backend outcome:
three staged progress writes (5, 10, 20), then on success the completion
write (100) followed by the result write; on a non-ok HTTP response the
error write is issued inline and the thrown error makes the catch block
issue it once more; a fetch failure or unparseable body reaches only the
error write of the catch block. -/
def launchWrites (resp : BackendResp) : List WriteOp :=
  [{ status := some "in_progress"
     current_step := some "analyzing_question"
     progress := some 5
     steps := some taskSteps },
   { current_step := some "checking_files"
     progress := some 10
     steps := some (stageSteps 1 "Téléchargement et vérification des fichiers...") },
   { current_step := some "analyzing_structure"
     progress := some 20
     steps := some (stageSteps 2 "Analyse de la structure des données et adaptation...") }] ++
  match resp with
  | .ok result =>
      [{ status := some "completed"
         current_step := some "creating_recommendations"
         progress := some 100
         steps := some doneSteps },
       { result := some result }]
  | .httpError _ => [errorWrite, errorWrite]
  | .malformed => [errorWrite]
  | .netError => [errorWrite]

/-- The full write sequence of one launch run: the writes of the
background task, plus the outer `.catch` handler of the endpoint, which writes the
error row once more when the task rethrows. -/
def launchRunWrites (resp : BackendResp) : List WriteOp :=
  launchWrites resp ++
  match resp with
  | .ok _ => []
  | _ => [errorWrite]

/-- The full write sequence of one resume run, analogously (outer
outer `.catch` of the continue endpoint). -/
def continueRunWrites (resp : BackendResp) : List WriteOp :=
  continueTaskWrites resp ++
  match resp with
  | .ok _ => []
  | _ => [errorWrite]

/-- The parsed body of an update-status request; `message` is
destructured by the handler but never copied into the update. -/
structure UpdateStatusBody where
  status : Option String := none
  current_step : Option String := none
  progress : Option Int := none
  steps : Option (List StepEntry) := none
  message : Option String := none
  missing_data : Option (List MissingDataItem) := none
  deriving DecidableEq, Repr

/-- `updateData` as built by the update-status handler: exactly the five
fields `status`, `current_step`, `progress`, `steps`, `missing_data`
are copied when present in the body; nothing else is ever written. -/
def buildUpdateData (b : UpdateStatusBody) : WriteOp :=
  { status := b.status
    current_step := b.current_step
    progress := b.progress
    steps := b.steps
    missing_data := b.missing_data
    result := none }

/-- The external write path, `POST` of
`src/app/api/decisions/analyze/[id]/update-status/route.ts`: a partial
update of the named fields, scoped to `id` and the `user_id` of the caller.
Returns `false` on the falsy-id 400 guard, `true` otherwise. -/
def updateStatusRoute (db : DB) (userId analysisId : String)
    (b : UpdateStatusBody) : DB × Bool :=
  if analysisId == "" then (db, false)
  else
    (db.map (fun r =>
      if r.id == analysisId && r.user_id == userId then
        applyWrite r (buildUpdateData b)
      else r), true)

/-- The JSON returned by the status read. -/
structure StatusResponse where
  analysis_id : String
  status : String
  current_step : Option String
  progress : Int
  steps : List StepEntry
  missing_data : List MissingDataItem
  result : Option String
  question : String
  deriving DecidableEq, Repr

/-- Outcome of `GET /api/decisions/analyze/[id]/status`. -/
inductive StatusResult where
  | badRequest
  | notFound
  | ok (resp : StatusResponse)
  deriving DecidableEq, Repr

/-- The status read endpoint: a user-scoped select; the `result` field is
surfaced only when the stored status is `completed`
(the conditional on a completed status in the source). -/
def statusRoute (db : DB) (userId analysisId : String) : StatusResult :=
  if analysisId == "" then .badRequest
  else
    match dbSelect db analysisId userId with
    | none => .notFound
    | some a =>
        .ok { analysis_id := a.id
              status := if a.status == "" then "pending" else a.status
              current_step := a.current_step
              progress := a.progress
              steps := a.steps
              missing_data := a.missing_data
              result := if a.status == "completed" then a.result else none
              question := a.question }

/-- A hypothesis chip (`HypothesisChip` in `TabsContext`): stable `id`,
display `label`, and a typed `value`. -/
structure HypothesisChip where
  id : String
  label : String
  value : JVal
  deriving DecidableEq, Repr

/-- The body of the `.some((hyp, index) => ...)` callback: an index with
no counterpart in `proposed` counts as changed (`!newHyp`), otherwise the
chip differs when its `id` or `value` differs under strict inequality. -/
def changedAt (proposed : List HypothesisChip) (k : Nat)
    (hyp : HypothesisChip) : Bool :=
  match proposed[k]? with
  | none => true
  | some newHyp => hyp.id != newHyp.id || hyp.value != newHyp.value

/-- The indexed scan of `currentHypotheses.some((hyp, index) => ...)`:
`i` is the index of the head of the remaining list in the full current
sequence. -/
def anyChangedFrom (proposed : List HypothesisChip) :
    Nat → List HypothesisChip → Bool
  | _, [] => false
  | i, hyp :: rest =>
      changedAt proposed i hyp || anyChangedFrom proposed (i + 1) rest

/-- The hypothesis diff guard of `CFOAssistant.handleSubmit`:
`hypothesesChanged = current.length !== new.length || current.some(...)`. -/
def hypothesesChanged (current proposed : List HypothesisChip) : Bool :=
  current.length != proposed.length || anyChangedFrom proposed 0 current

/-- The chat response fields the relaunch decision depends on:
`updated_hypotheses` (absent or not an array modelled as `none`) and the
`should_relaunch_analysis` flag. -/
structure ChatResponse where
  updated_hypotheses : Option (List HypothesisChip)
  should_relaunch_analysis : Bool
  deriving DecidableEq, Repr

/-- The value of the `hypothesesChanged` local in `handleSubmit`: it stays
`false` unless the response carries a hypothesis array. -/
def hypothesesChangedResp (current : List HypothesisChip)
    (resp : ChatResponse) : Bool :=
  match resp.updated_hypotheses with
  | some newHyps => hypothesesChanged current newHyps
  | none => false

/-- Whether `handleSubmit` issues the relaunch `fetch` to the continue
endpoint: `should_relaunch_analysis && hypothesesChanged && analysisId`. -/
def relaunchIssued (current : List HypothesisChip) (resp : ChatResponse)
    (analysisId : Option String) : Bool :=
  resp.should_relaunch_analysis && hypothesesChangedResp current resp
    && analysisId.isSome

/-- The client state `TabsContext` keeps: the shared `analyses` table, the
authenticated user, the active project, and the per-project closed-tab
sets persisted in `localStorage` (an association list keyed by project
id, most recent entry first). -/
structure ClientState where
  db : DB
  userId : String
  activeProjectId : Option String
  closed : List (String × List String)
  deriving DecidableEq, Repr

/-- The closed-tab set stored for a project (empty when nothing was ever
saved). -/
def closedFor (closed : List (String × List String)) (p : String) :
    List String :=
  (closed.lookup p).getD []

/-- `saveClosedTabs`: overwrite the stored set for one project. -/
def saveClosed (closed : List (String × List String)) (p : String)
    (ids : List String) : List (String × List String) :=
  (p, ids) :: closed.filter (fun e => e.1 != p)

/-- The tab id a persisted analysis gets (`analysis-` followed by the
record id). -/
def tabIdOf (analysisId : String) : String :=
  "analysis-" ++ analysisId

/-- the startsWith guard on the `analysis-` marker, the guard of `closeTab`, stated over
the character lists underlying the strings. -/
def isAnalysisTab (tabId : String) : Bool :=
  ("analysis-".data).isPrefixOf tabId.data

/-- the replace call removing the `analysis-` marker for the tab ids the context builds:
strip the leading marker. -/
def analysisIdOfTab (tabId : String) : String :=
  if isAnalysisTab tabId then tabId.drop 9 else tabId

/-- `closeTab`: persisted analysis tabs are added to the closed set of
the active project; other tabs (temporary ones) are only dropped from the view
and nothing is saved. The record store is untouched. -/
def closeTab (st : ClientState) (tabId : String) : ClientState :=
  if isAnalysisTab tabId then
    match st.activeProjectId with
    | some p =>
        { st with closed :=
            saveClosed st.closed p ((closedFor st.closed p).insert tabId) }
    | none => st
  else st

/-- `reopenTab`: remove the tab id from the closed set of the active
project. -/
def reopenTab (st : ClientState) (tabId : String) : ClientState :=
  match st.activeProjectId with
  | some p =>
      { st with closed :=
          saveClosed st.closed p ((closedFor st.closed p).erase tabId) }
  | none => st

/-- `permanentlyDeleteTab`: delete the analysis row (scoped to the
caller), then remove the tab id from the closed set of the active
project.
The `if (!user || !analysisId) return` guard makes it a no-op for an
empty user or id. -/
def permanentlyDeleteTab (st : ClientState) (tabId : String) : ClientState :=
  let analysisId := analysisIdOfTab tabId
  if st.userId == "" || analysisId == "" then st
  else
    { st with
      db := st.db.filter
        (fun r => !(r.id == analysisId && r.user_id == st.userId))
      closed :=
        match st.activeProjectId with
        | some p =>
            saveClosed st.closed p ((closedFor st.closed p).erase tabId)
        | none => st.closed }

/-- The active tab listing `loadAnalyses` derives for a project: every
analysis row of the caller in that project, as a tab id, except those in
the closed set of the project. -/
def activeListing (st : ClientState) (p : String) : List String :=
  ((st.db.filter (fun r => r.user_id == st.userId && r.project_id == p)).map
    (fun r => tabIdOf r.id)).filter
      (fun tid => !(closedFor st.closed p).contains tid)

/-- A write that leaves the active phase: it sets a terminal status. -/
def isTerminalWrite (w : WriteOp) : Bool :=
  w.status == some "completed" || w.status == some "error"

/-- The progress values a write sequence stores while the job is still
active: the progress fields of the writes preceding the first terminal
transition. -/
def activeProgressWrites (ws : List WriteOp) : List Int :=
  (ws.takeWhile (fun w => !isTerminalWrite w)).filterMap (fun w => w.progress)

/-! Concrete rows and stores used to instantiate the theorems below. -/

/-- A completed job row. -/
def c1Rec : AnalysisRecord :=
  { id := "a1", user_id := "u1", project_id := "p1", question := "q1",
    file_ids := [], status := "completed",
    current_step := some "creating_recommendations", progress := 100,
    steps := [], missing_data := [], result := some "report" }

/-- A required missing-data item. -/
def c2Item : MissingDataItem :=
  { id := "salary", kind := "number", description := "Salaire annuel",
    required := true }

/-- A parked job waiting for one required item. -/
def c2Rec : AnalysisRecord :=
  { id := "a2", user_id := "u1", project_id := "p1", question := "q2",
    file_ids := ["f1"], status := "waiting_for_data",
    current_step := some "checking_files", progress := 10,
    steps := [], missing_data := [c2Item], result := none }

/-- A freshly created job row. -/
def c3Rec : AnalysisRecord :=
  { id := "a3", user_id := "u1", project_id := "p1", question := "q3",
    file_ids := [], status := "pending",
    current_step := some "analyzing_question", progress := 0,
    steps := initialSteps, missing_data := [], result := none }

/-- An active job row with stored progress 20. -/
def c4Rec : AnalysisRecord :=
  { id := "a4", user_id := "u1", project_id := "p1", question := "q4",
    file_ids := [], status := "in_progress",
    current_step := some "analyzing_structure", progress := 20,
    steps := [], missing_data := [], result := none }

/-- A hypothesis chip for the diff-guard instances. -/
def c5Chip : HypothesisChip :=
  { id := "salary", label := "Salaire", value := JVal.num 60000 }

/-- Stores with one owned project and one owned file. -/
def c7Stores : Stores :=
  { projects := [{ id := "p1", user_id := "u1" }],
    files := [{ id := "f1", user_id := "u1", project_id := "p1" }],
    analyses := [] }

/-- A launch body naming a file id the caller does not own. -/
def c7Body : LaunchBody :=
  { question := some "Can I hire at 60000?", file_ids := some ["f2"],
    project_id := some "p1" }

/-- A launch body passing every check. -/
def c7GoodBody : LaunchBody :=
  { question := some "Can I hire at 60000?", file_ids := some ["f1"],
    project_id := some "p1" }

/-- A completed job row in the tab-lifecycle instances. -/
def c8Rec : AnalysisRecord :=
  { id := "a8", user_id := "u8", project_id := "p8", question := "q8",
    file_ids := [], status := "completed", current_step := none,
    progress := 100, steps := [], missing_data := [], result := some "r8" }

/-- Client state owning `c8Rec` with project `p8` active. -/
def c8St : ClientState :=
  { db := [c8Rec], userId := "u8", activeProjectId := some "p8",
    closed := [] }

/-- A job row owned by a different user than the caller in the
scoping instances. -/
def c10Rec : AnalysisRecord :=
  { id := "a10", user_id := "bob", project_id := "p10", question := "q10",
    file_ids := [], status := "in_progress",
    current_step := some "checking_files", progress := 10,
    steps := [], missing_data := [], result := none }

/-! Shared lemmas about the continue endpoint. -/

/-- On a successful user-scoped select, the continue endpoint rewrites
every row with the matching id through `continueUpdate` and reports
success with the relaunch arguments. -/
theorem continueRoute_eq_of_select (db : DB) (userId analysisId : String)
    (data : ProvidedData) (a : AnalysisRecord) (hid : analysisId ≠ "")
    (hsel : dbSelect db analysisId userId = some a) :
    continueRoute db userId analysisId data =
      (dbUpdateById db analysisId continueUpdate,
       ContinueResult.success
         { analysis_id := analysisId, question := a.question,
           file_ids := a.file_ids, provided_data := data }) := by
  have hid' : (analysisId == "") = false := by simpa using hid
  simp [continueRoute, hid', hsel]

/-- Any row of the updated table carrying the targeted id has exactly the
fields the continue endpoint writes. -/
theorem continueUpdate_row_shape (db : DB) (analysisId : String)
    (r : AnalysisRecord) (hr : r ∈ dbUpdateById db analysisId continueUpdate)
    (hrid : r.id = analysisId) :
    r.status = "in_progress" ∧ r.missing_data = [] ∧ r.progress = 20 ∧
    r.current_step = some "analyzing_structure" := by
  rcases List.mem_map.mp hr with ⟨r0, hr0, heq⟩
  by_cases h0 : r0.id = analysisId
  · have hb : (r0.id == analysisId) = true := by simpa using h0
    simp only [hb, if_true] at heq
    subst heq
    simp [continueUpdate]
  · have hb : (r0.id == analysisId) = false := by simpa using h0
    simp only [hb, Bool.false_eq_true, if_false] at heq
    subst heq
    exact absurd hrid h0

/-- C1 (amended): the resume endpoint performs no status check.  For any
job the caller owns — whatever its current status, `WaitingForData` or
not — the call succeeds, triggers the background relaunch, and rewrites
the row to `in_progress` with `missing_data` cleared, `progress` 20 and
`current_step` at the restart step; no `InvalidTransition` rejection
exists.  (Only a missing or foreign job id is rejected, with 404 and no
mutation.) -/
theorem C1_resume_ignores_status (db : DB) (userId analysisId : String)
    (data : ProvidedData) (a : AnalysisRecord) (hid : analysisId ≠ "")
    (hsel : dbSelect db analysisId userId = some a) :
    (continueRoute db userId analysisId data).2 =
      ContinueResult.success
        { analysis_id := analysisId, question := a.question,
          file_ids := a.file_ids, provided_data := data } ∧
    ∀ r ∈ (continueRoute db userId analysisId data).1, r.id = analysisId →
      r.status = "in_progress" ∧ r.missing_data = [] ∧ r.progress = 20 ∧
      r.current_step = some "analyzing_structure" := by
  rw [continueRoute_eq_of_select db userId analysisId data a hid hsel]
  exact ⟨rfl, fun r hr hrid => continueUpdate_row_shape db analysisId r hr hrid⟩

/-- C1 counterexample: resuming the completed job `c1Rec` — whose status
is not `waiting_for_data` — does not fail with any error: it returns
success and mutates the record back to `in_progress`. -/
theorem C1_counterexample :
    c1Rec.status ≠ "waiting_for_data" ∧
    (continueRoute [c1Rec] "u1" "a1" []).2 =
      ContinueResult.success
        { analysis_id := "a1", question := "q1", file_ids := [],
          provided_data := [] } ∧
    (continueRoute [c1Rec] "u1" "a1" []).1 ≠ [c1Rec] ∧
    ((continueRoute [c1Rec] "u1" "a1" []).1.map (fun r => r.status)) =
      ["in_progress"] := by
  decide

/-- C1 witness: the amended theorem instantiated on the concrete
completed job. -/
theorem C1_witness :
    (continueRoute [c1Rec] "u1" "a1" []).2 =
      ContinueResult.success
        { analysis_id := "a1", question := "q1", file_ids := [],
          provided_data := [] } ∧
    ∀ r ∈ (continueRoute [c1Rec] "u1" "a1" []).1, r.id = "a1" →
      r.status = "in_progress" ∧ r.missing_data = [] ∧ r.progress = 20 ∧
      r.current_step = some "analyzing_structure" :=
  C1_resume_ignores_status [c1Rec] "u1" "a1" [] c1Rec (by decide) (by decide)

/-- C2 (amended): the server performs no required-coverage check on a
resume.  The database effect is independent of the supplied mapping, and
any accepted resume clears `missing_data` — even a mapping covering no
`required = true` item is applied rather than rejected; the only
required-field enforcement in the source is client-side HTML form
validation. -/
theorem C2_no_required_coverage_check (db : DB)
    (userId analysisId : String) (data data2 : ProvidedData) :
    (continueRoute db userId analysisId data).1 =
      (continueRoute db userId analysisId data2).1 ∧
    ∀ a, analysisId ≠ "" → dbSelect db analysisId userId = some a →
      ∀ r ∈ (continueRoute db userId analysisId data).1, r.id = analysisId →
        r.missing_data = [] := by
  constructor
  · by_cases hid : analysisId = ""
    · have hid' : (analysisId == "") = true := by simpa using hid
      simp [continueRoute, hid']
    · cases hsel : dbSelect db analysisId userId with
      | none =>
          have hid' : (analysisId == "") = false := by simpa using hid
          simp [continueRoute, hid', hsel]
      | some a =>
          rw [continueRoute_eq_of_select db userId analysisId data a hid hsel,
            continueRoute_eq_of_select db userId analysisId data2 a hid hsel]
  · intro a hid hsel r hr hrid
    rw [continueRoute_eq_of_select db userId analysisId data a hid hsel] at hr
    exact (continueUpdate_row_shape db analysisId r hr hrid).2.1

/-- C2 counterexample: `c2Rec` waits for the required item `salary`; the
empty supplied mapping covers no required item, yet the resume is not
rejected: it succeeds and clears `missing_data`. -/
theorem C2_counterexample :
    (c2Rec.missing_data.filter (fun item => item.required)).map
      (fun item => item.id) = ["salary"] ∧
    ([] : ProvidedData).lookup "salary" = none ∧
    (continueRoute [c2Rec] "u1" "a2" []).2 =
      ContinueResult.success
        { analysis_id := "a2", question := "q2", file_ids := ["f1"],
          provided_data := [] } ∧
    ((continueRoute [c2Rec] "u1" "a2" []).1.map
      (fun r => r.missing_data)) = [[]] := by
  decide

/-- C2 witness: the amended theorem instantiated on `c2Rec` with the
empty mapping against a non-empty one. -/
theorem C2_witness :
    (continueRoute [c2Rec] "u1" "a2" []).1 =
      (continueRoute [c2Rec] "u1" "a2" [("salary", JVal.num 60000)]).1 ∧
    ∀ a, "a2" ≠ "" → dbSelect [c2Rec] "a2" "u1" = some a →
      ∀ r ∈ (continueRoute [c2Rec] "u1" "a2" []).1, r.id = "a2" →
        r.missing_data = [] :=
  C2_no_required_coverage_check [c2Rec] "u1" "a2" [] [("salary", JVal.num 60000)]

/-- C6 (confirmed): a successful resume clears `missing_data`, sets the
status to `in_progress`, resets `progress` to the fixed restart value 20,
and hands the background task a payload carrying the original question
together with the supplied data. -/
theorem C6_resume_success_effect (db : DB) (userId analysisId : String)
    (data : ProvidedData) (a : AnalysisRecord) (hid : analysisId ≠ "")
    (hsel : dbSelect db analysisId userId = some a) :
    (∃ req, (continueRoute db userId analysisId data).2 =
        ContinueResult.success req ∧
      (continueTaskPayload req).question = a.question ∧
      (continueTaskPayload req).provided_data = some data ∧
      (continueTaskPayload req).analysis_id = analysisId) ∧
    ∀ r ∈ (continueRoute db userId analysisId data).1, r.id = analysisId →
      r.missing_data = [] ∧ r.status = "in_progress" ∧ r.progress = 20 := by
  rw [continueRoute_eq_of_select db userId analysisId data a hid hsel]
  refine ⟨⟨_, rfl, rfl, rfl, rfl⟩, fun r hr hrid => ?_⟩
  have h := continueUpdate_row_shape db analysisId r hr hrid
  exact ⟨h.2.1, h.1, h.2.2.1⟩

/-- C6 witness: the theorem instantiated on the parked job `c2Rec`
resumed with a salary value. -/
theorem C6_witness :
    (∃ req, (continueRoute [c2Rec] "u1" "a2"
        [("salary", JVal.num 60000)]).2 = ContinueResult.success req ∧
      (continueTaskPayload req).question = c2Rec.question ∧
      (continueTaskPayload req).provided_data =
        some [("salary", JVal.num 60000)] ∧
      (continueTaskPayload req).analysis_id = "a2") ∧
    ∀ r ∈ (continueRoute [c2Rec] "u1" "a2"
        [("salary", JVal.num 60000)]).1, r.id = "a2" →
      r.missing_data = [] ∧ r.status = "in_progress" ∧ r.progress = 20 :=
  C6_resume_success_effect [c2Rec] "u1" "a2" [("salary", JVal.num 60000)]
    c2Rec (by decide) (by decide)

/-- C3 (amended): any backend failure — non-ok HTTP response, unparseable
body, or a thrown fetch error — transitions the job to `error` with
`progress` reset to 0 (not left at its last known value) and
`current_step` left pointing at the step that was running when the call
failed, in both the launch task and the resume task. -/
theorem C3_failure_transitions_to_error (r : AnalysisRecord)
    (resp : BackendResp) (hfail : ∀ x, resp ≠ BackendResp.ok x) :
    (applyWrites r (launchRunWrites resp)).status = "error" ∧
    (applyWrites r (launchRunWrites resp)).progress = 0 ∧
    (applyWrites r (launchRunWrites resp)).current_step =
      some "analyzing_structure" ∧
    (applyWrites r (continueRunWrites resp)).status = "error" ∧
    (applyWrites r (continueRunWrites resp)).progress = 0 ∧
    (applyWrites r (continueRunWrites resp)).current_step =
      some "analyzing_structure" := by
  cases resp with
  | ok x => exact absurd rfl (hfail x)
  | httpError t => exact ⟨rfl, rfl, rfl, rfl, rfl, rfl⟩
  | malformed => exact ⟨rfl, rfl, rfl, rfl, rfl, rfl⟩
  | netError => exact ⟨rfl, rfl, rfl, rfl, rfl, rfl⟩

/-- C3 counterexample: on a failing backend call the launch task had last
written `progress = 20`, but the final record shows `progress = 0` — the
error write resets progress instead of leaving it at its last known
value. -/
theorem C3_counterexample :
    (applyWrites c3Rec
      ((launchWrites (BackendResp.httpError "boom")).take 3)).progress = 20 ∧
    (applyWrites c3Rec
      (launchRunWrites (BackendResp.httpError "boom"))).progress = 0 ∧
    (applyWrites c3Rec
      (launchRunWrites (BackendResp.httpError "boom"))).progress ≠ 20 ∧
    (applyWrites c3Rec
      (launchRunWrites (BackendResp.httpError "boom"))).status = "error" := by
  decide

/-- C3 witness: the amended theorem instantiated on `c3Rec` with a thrown
fetch error. -/
theorem C3_witness :
    (applyWrites c3Rec (launchRunWrites BackendResp.netError)).status =
      "error" ∧
    (applyWrites c3Rec (launchRunWrites BackendResp.netError)).progress = 0 ∧
    (applyWrites c3Rec (launchRunWrites BackendResp.netError)).current_step =
      some "analyzing_structure" ∧
    (applyWrites c3Rec (continueRunWrites BackendResp.netError)).status =
      "error" ∧
    (applyWrites c3Rec (continueRunWrites BackendResp.netError)).progress =
      0 ∧
    (applyWrites c3Rec
      (continueRunWrites BackendResp.netError)).current_step =
      some "analyzing_structure" :=
  C3_failure_transitions_to_error c3Rec BackendResp.netError
    (fun _ h => BackendResp.noConfusion h)

/-- C4 (amended): the progress values the background tasks themselves
write are non-decreasing while the job stays active (5, 10, 20 for a
launch; 20 for a resume), and a successful run is non-decreasing through
completion (5, 10, 20, 100); but the external update-status path applies
any supplied progress without comparing it to the stored value, so a
write through that path can decrease progress while the job is active
(see the counterexample). -/
theorem C4_background_progress_monotone (resp : BackendResp) :
    List.Chain' (· ≤ ·) (activeProgressWrites (launchRunWrites resp)) ∧
    List.Chain' (· ≤ ·) (activeProgressWrites (continueRunWrites resp)) ∧
    ∀ x, resp = BackendResp.ok x →
      List.Chain' (· ≤ ·)
        ((launchRunWrites resp).filterMap (fun w => w.progress)) := by
  cases resp with
  | ok x =>
      have h1 : activeProgressWrites (launchRunWrites (BackendResp.ok x)) =
          [5, 10, 20] := rfl
      have h2 : activeProgressWrites (continueRunWrites (BackendResp.ok x)) =
          [20] := rfl
      have h3 : (launchRunWrites (BackendResp.ok x)).filterMap
          (fun w => w.progress) = [5, 10, 20, 100] := rfl
      refine ⟨?_, ?_, ?_⟩
      · rw [h1]; norm_num [List.chain'_cons]
      · rw [h2]; simp
      · intro x' _; rw [h3]; norm_num [List.chain'_cons]
  | httpError t =>
      have h1 : activeProgressWrites
          (launchRunWrites (BackendResp.httpError t)) = [5, 10, 20] := rfl
      have h2 : activeProgressWrites
          (continueRunWrites (BackendResp.httpError t)) = [20] := rfl
      refine ⟨?_, ?_, ?_⟩
      · rw [h1]; norm_num [List.chain'_cons]
      · rw [h2]; simp
      · intro x' hx; exact absurd hx (by simp)
  | malformed =>
      refine ⟨?_, ?_, ?_⟩
      · show List.Chain' (· ≤ ·) [5, 10, 20]; norm_num [List.chain'_cons]
      · show List.Chain' (· ≤ ·) [20]; simp
      · intro x' hx; exact absurd hx (by simp)
  | netError =>
      refine ⟨?_, ?_, ?_⟩
      · show List.Chain' (· ≤ ·) [5, 10, 20]; norm_num [List.chain'_cons]
      · show List.Chain' (· ≤ ·) [20]; simp
      · intro x' hx; exact absurd hx (by simp)

/-- C4 counterexample: the update-status path, invoked on the active job
`c4Rec` whose stored progress is 20, writes the supplied progress 3
verbatim — a write issued while the job is active (its status stays
`in_progress`) that decreases the stored progress, and it is not the
resume reset. -/
theorem C4_counterexample :
    c4Rec.status = "in_progress" ∧ c4Rec.progress = 20 ∧
    ((updateStatusRoute [c4Rec] "u1" "a4"
        { progress := some 3 }).1.map (fun r => (r.status, r.progress))) =
      [("in_progress", 3)] ∧
    (3 : Int) < 20 := by
  decide

/-- C4 witness: the amended theorem instantiated on a successful backend
response. -/
theorem C4_witness :
    List.Chain' (· ≤ ·)
      ((launchRunWrites (BackendResp.ok "res")).filterMap
        (fun w => w.progress)) :=
  (C4_background_progress_monotone (BackendResp.ok "res")).2.2 "res" rfl

/-- The indexed scan of the diff guard finds a change exactly when some
valid index of the remaining list is changed at its shifted position. -/
theorem anyChangedFrom_iff (proposed : List HypothesisChip) :
    ∀ (current : List HypothesisChip) (i : Nat),
      anyChangedFrom proposed i current = true ↔
      ∃ j, ∃ h : j < current.length,
        changedAt proposed (i + j) (current.get ⟨j, h⟩) = true := by
  intro current
  induction current with
  | nil => intro i; simp [anyChangedFrom]
  | cons hyp rest ih =>
      intro i
      simp only [anyChangedFrom, Bool.or_eq_true]
      constructor
      · rintro (hc | hr)
        · exact ⟨0, Nat.succ_pos _, by simpa using hc⟩
        · rcases (ih (i + 1)).mp hr with ⟨j, hj, hcj⟩
          refine ⟨j + 1, Nat.succ_lt_succ hj, ?_⟩
          have harith : i + 1 + j = i + (j + 1) := by omega
          rw [harith] at hcj
          simpa using hcj
      · rintro ⟨j, hj, hcj⟩
        cases j with
        | zero => exact Or.inl (by simpa using hcj)
        | succ j' =>
            refine Or.inr ((ih (i + 1)).mpr
              ⟨j', Nat.lt_of_succ_lt_succ hj, ?_⟩)
            have harith : i + 1 + j' = i + (j' + 1) := by omega
            rw [harith]
            simpa using hcj

/-- C5 (confirmed): the hypothesis diff guard reports changed exactly
when the sequences differ in length or some common index differs in `id`
or `value`; and whenever the guard reports unchanged, `handleSubmit`
issues no relaunch call to the continue endpoint. -/
theorem C5_diff_guard (current proposed : List HypothesisChip) :
    (hypothesesChanged current proposed = true ↔
      current.length ≠ proposed.length ∨
      ∃ i, ∃ h1 : i < current.length, ∃ h2 : i < proposed.length,
        current[i].id ≠ proposed[i].id ∨
        current[i].value ≠ proposed[i].value) ∧
    ∀ resp analysisId, resp.updated_hypotheses = some proposed →
      hypothesesChanged current proposed = false →
      relaunchIssued current resp analysisId = false := by
  constructor
  · unfold hypothesesChanged
    rw [Bool.or_eq_true]
    constructor
    · rintro (hlen | hany)
      · exact Or.inl (by simpa using hlen)
      · by_cases hlen : current.length = proposed.length
        · right
          rcases (anyChangedFrom_iff proposed current 0).mp hany
            with ⟨j, hj, hcj⟩
          have hj2 : j < proposed.length := hlen ▸ hj
          refine ⟨j, hj, hj2, ?_⟩
          unfold changedAt at hcj
          rw [Nat.zero_add, List.getElem?_eq_getElem hj2] at hcj
          simp only [List.get_eq_getElem] at hcj
          rw [Bool.or_eq_true] at hcj
          rcases hcj with h | h
          · exact Or.inl (by simpa using h)
          · exact Or.inr (by simpa using h)
        · exact Or.inl hlen
    · rintro (hlen | ⟨i, h1, h2, hij⟩)
      · exact Or.inl (by simpa using hlen)
      · by_cases hlen : current.length = proposed.length
        · refine Or.inr ((anyChangedFrom_iff proposed current 0).mpr
            ⟨i, h1, ?_⟩)
          unfold changedAt
          rw [Nat.zero_add, List.getElem?_eq_getElem h2]
          simp only [List.get_eq_getElem]
          rw [Bool.or_eq_true]
          rcases hij with h | h
          · exact Or.inl (by simpa using h)
          · exact Or.inr (by simpa using h)
        · exact Or.inl (by simpa using hlen)
  · intro resp analysisId hhyps hunch
    simp [relaunchIssued, hypothesesChangedResp, hhyps, hunch]

/-- C5 witness: with identical current and proposed sequences the guard
reports unchanged and no relaunch is issued even though the chat response
asks for one. -/
theorem C5_witness :
    relaunchIssued [c5Chip]
      { updated_hypotheses := some [c5Chip],
        should_relaunch_analysis := true }
      (some "a1") = false :=
  (C5_diff_guard [c5Chip] [c5Chip]).2
    { updated_hypotheses := some [c5Chip], should_relaunch_analysis := true }
    (some "a1") rfl (by decide)

/-! Branch lemmas for the launch endpoint. -/

/-- A missing or empty question is rejected before any insert. -/
theorem streamRoute_invalid_question (st : Stores) (userId : String)
    (body : LaunchBody) (newId : String)
    (hq : questionInvalid body.question = true) :
    streamRoute st userId body newId =
      (st, LaunchResult.validationError "Question is required") := by
  simp [streamRoute, hq]

/-- A missing project id is rejected before any insert. -/
theorem streamRoute_invalid_project_id (st : Stores) (userId : String)
    (body : LaunchBody) (newId : String)
    (hq : questionInvalid body.question = false)
    (hp : projectIdInvalid body.project_id = true) :
    streamRoute st userId body newId =
      (st, LaunchResult.validationError "Project ID is required") := by
  simp [streamRoute, hq, hp]

/-- An unresolvable project is rejected before any insert. -/
theorem streamRoute_no_project (st : Stores) (userId : String)
    (body : LaunchBody) (newId : String)
    (hq : questionInvalid body.question = false)
    (hp : projectIdInvalid body.project_id = false)
    (hfind : st.projects.find? (fun p =>
        p.id == body.project_id.getD "" && p.user_id == userId) = none) :
    streamRoute st userId body newId =
      (st, LaunchResult.accessError "Project not found or access denied") := by
  simp [streamRoute, hq, hp, hfind]

/-- A failing file-ownership check is rejected before any insert. -/
theorem streamRoute_files_denied (st : Stores) (userId : String)
    (body : LaunchBody) (newId : String) (pr : ProjectRecord)
    (hq : questionInvalid body.question = false)
    (hp : projectIdInvalid body.project_id = false)
    (hfind : st.projects.find? (fun p =>
        p.id == body.project_id.getD "" && p.user_id == userId) = some pr)
    (hfile : ((body.file_ids.getD []).length > 0 &&
        ((st.files.filter (fun f => f.user_id == userId &&
            f.project_id == body.project_id.getD "" &&
            (body.file_ids.getD []).contains f.id)).length
          != (body.file_ids.getD []).length)) = true) :
    streamRoute st userId body newId =
      (st, LaunchResult.accessError
        "Some files not found, access denied, or files belong to different project") := by
  simp only [streamRoute, hq, hp, hfind, Bool.false_eq_true, if_false]
  rw [if_pos hfile]

/-- When every check passes, the row is inserted and the response built
from it is returned at once. -/
theorem streamRoute_created (st : Stores) (userId : String)
    (body : LaunchBody) (newId : String) (pr : ProjectRecord)
    (hq : questionInvalid body.question = false)
    (hp : projectIdInvalid body.project_id = false)
    (hfind : st.projects.find? (fun p =>
        p.id == body.project_id.getD "" && p.user_id == userId) = some pr)
    (hfile : ((body.file_ids.getD []).length > 0 &&
        ((st.files.filter (fun f => f.user_id == userId &&
            f.project_id == body.project_id.getD "" &&
            (body.file_ids.getD []).contains f.id)).length
          != (body.file_ids.getD []).length)) = false) :
    streamRoute st userId body newId =
      ({ st with analyses := st.analyses ++ [launchRecord userId body newId] },
       LaunchResult.created
         { analysis_id := newId, status := "pending",
           current_step := "analyzing_question", progress := 0,
           steps := initialSteps }) := by
  simp only [streamRoute, hq, hp, hfind, Bool.false_eq_true, if_false]
  rw [if_neg (fun hc => Bool.false_ne_true (hfile ▸ hc))]

/-- C7 (amended): a launch with a missing or empty question or a missing
project id is rejected with a validation error and no record is created;
an unresolvable project or file identifiers not owned by the caller in
that project are likewise rejected before creation (403); in every other
case a row is created synchronously with status `pending` and progress 0,
and the response — carrying the new job id and built without consulting
the AI service — is returned immediately. -/
theorem C7_launch_contract (st : Stores) (userId : String)
    (body : LaunchBody) (newId : String) :
    (questionInvalid body.question = true ∨
        projectIdInvalid body.project_id = true →
      (streamRoute st userId body newId).1 = st ∧
      ∃ m, (streamRoute st userId body newId).2 =
        LaunchResult.validationError m) ∧
    (questionInvalid body.question = false →
     projectIdInvalid body.project_id = false →
     st.projects.find? (fun p =>
        p.id == body.project_id.getD "" && p.user_id == userId) = none →
      (streamRoute st userId body newId).1 = st ∧
      (streamRoute st userId body newId).2 =
        LaunchResult.accessError "Project not found or access denied") ∧
    (∀ pr, questionInvalid body.question = false →
     projectIdInvalid body.project_id = false →
     st.projects.find? (fun p =>
        p.id == body.project_id.getD "" && p.user_id == userId) = some pr →
     ((body.file_ids.getD []).length > 0 &&
        ((st.files.filter (fun f => f.user_id == userId &&
            f.project_id == body.project_id.getD "" &&
            (body.file_ids.getD []).contains f.id)).length
          != (body.file_ids.getD []).length)) = true →
      (streamRoute st userId body newId).1 = st ∧
      (streamRoute st userId body newId).2 = LaunchResult.accessError
        "Some files not found, access denied, or files belong to different project") ∧
    (∀ pr, questionInvalid body.question = false →
     projectIdInvalid body.project_id = false →
     st.projects.find? (fun p =>
        p.id == body.project_id.getD "" && p.user_id == userId) = some pr →
     ((body.file_ids.getD []).length > 0 &&
        ((st.files.filter (fun f => f.user_id == userId &&
            f.project_id == body.project_id.getD "" &&
            (body.file_ids.getD []).contains f.id)).length
          != (body.file_ids.getD []).length)) = false →
      (streamRoute st userId body newId).2 = LaunchResult.created
        { analysis_id := newId, status := "pending",
          current_step := "analyzing_question", progress := 0,
          steps := initialSteps } ∧
      (streamRoute st userId body newId).1.analyses =
        st.analyses ++ [launchRecord userId body newId] ∧
      (launchRecord userId body newId).id = newId ∧
      (launchRecord userId body newId).status = "pending" ∧
      (launchRecord userId body newId).progress = 0) := by
  refine ⟨?_, ?_, ?_, ?_⟩
  · intro h
    by_cases hq : questionInvalid body.question = true
    · rw [streamRoute_invalid_question st userId body newId hq]
      exact ⟨rfl, "Question is required", rfl⟩
    · have hq' : questionInvalid body.question = false := by
        simpa using hq
      have hp : projectIdInvalid body.project_id = true := by
        rcases h with h | h
        · rw [hq'] at h; cases h
        · exact h
      rw [streamRoute_invalid_project_id st userId body newId hq' hp]
      exact ⟨rfl, "Project ID is required", rfl⟩
  · intro hq hp hfind
    rw [streamRoute_no_project st userId body newId hq hp hfind]
    exact ⟨rfl, rfl⟩
  · intro pr hq hp hfind hfile
    rw [streamRoute_files_denied st userId body newId pr hq hp hfind hfile]
    exact ⟨rfl, rfl⟩
  · intro pr hq hp hfind hfile
    rw [streamRoute_created st userId body newId pr hq hp hfind hfile]
    exact ⟨rfl, rfl, rfl, rfl, rfl⟩

/-- C7 counterexample: a launch request with a non-empty question and a
resolvable owned project, but naming a file id the caller does not own,
creates no record — contradicting the claim that apart from the
question/project-scope validation a record is always created. -/
theorem C7_counterexample :
    questionInvalid c7Body.question = false ∧
    projectIdInvalid c7Body.project_id = false ∧
    (c7Stores.projects.find? (fun p =>
        p.id == "p1" && p.user_id == "u1")).isSome = true ∧
    (streamRoute c7Stores "u1" c7Body "new1").2 =
      LaunchResult.accessError
        "Some files not found, access denied, or files belong to different project" ∧
    (streamRoute c7Stores "u1" c7Body "new1").1.analyses = [] := by
  decide

/-- C7 witness: the creation branch of the amended theorem instantiated
on a request passing every check. -/
theorem C7_witness :
    (streamRoute c7Stores "u1" c7GoodBody "new1").2 = LaunchResult.created
      { analysis_id := "new1", status := "pending",
        current_step := "analyzing_question", progress := 0,
        steps := initialSteps } ∧
    (streamRoute c7Stores "u1" c7GoodBody "new1").1.analyses =
      c7Stores.analyses ++ [launchRecord "u1" c7GoodBody "new1"] ∧
    (launchRecord "u1" c7GoodBody "new1").id = "new1" ∧
    (launchRecord "u1" c7GoodBody "new1").status = "pending" ∧
    (launchRecord "u1" c7GoodBody "new1").progress = 0 :=
  (C7_launch_contract c7Stores "u1" c7GoodBody "new1").2.2.2
    { id := "p1", user_id := "u1" }
    (by decide) (by decide) (by decide) (by decide)

/-- C9 (confirmed): the update-status path is a partial-field write.
The handler copies exactly `status`, `current_step`, `progress`, `steps`
and `missing_data` from the request body when present (`message` is read
but never written), and every row keeps its identity fields, `question`,
`file_ids` and `result` unchanged; a field absent from the body keeps its
stored value, a present field takes the value in the body, and rows not
matching the id/owner scope are untouched — never a full-record
overwrite. -/
theorem C9_update_status_partial (db : DB) (userId analysisId : String)
    (b : UpdateStatusBody) (r : AnalysisRecord) (hid : analysisId ≠ "")
    (hmem : r ∈ db) :
    (∀ m, buildUpdateData { b with message := m } = buildUpdateData b) ∧
    ∃ r2, r2 ∈ (updateStatusRoute db userId analysisId b).1 ∧
      r2.id = r.id ∧ r2.user_id = r.user_id ∧ r2.project_id = r.project_id ∧
      r2.question = r.question ∧ r2.file_ids = r.file_ids ∧
      r2.result = r.result ∧
      (¬(r.id = analysisId ∧ r.user_id = userId) → r2 = r) ∧
      (r.id = analysisId → r.user_id = userId →
        (b.status = none → r2.status = r.status) ∧
        (∀ v, b.status = some v → r2.status = v) ∧
        (b.current_step = none → r2.current_step = r.current_step) ∧
        (∀ v, b.current_step = some v → r2.current_step = some v) ∧
        (b.progress = none → r2.progress = r.progress) ∧
        (∀ v, b.progress = some v → r2.progress = v) ∧
        (b.steps = none → r2.steps = r.steps) ∧
        (∀ v, b.steps = some v → r2.steps = v) ∧
        (b.missing_data = none → r2.missing_data = r.missing_data) ∧
        (∀ v, b.missing_data = some v → r2.missing_data = v)) := by
  have hid' : (analysisId == "") = false := by simpa using hid
  refine ⟨fun m => rfl, ?_⟩
  refine ⟨(if r.id == analysisId && r.user_id == userId then
      applyWrite r (buildUpdateData b) else r), ?_, ?_⟩
  · simp only [updateStatusRoute, hid', Bool.false_eq_true, if_false]
    exact List.mem_map_of_mem _ hmem
  · by_cases hmatch : (r.id == analysisId && r.user_id == userId) = true
    · rw [if_pos hmatch]
      have hpair := Bool.and_eq_true _ _ ▸ hmatch
      refine ⟨rfl, rfl, rfl, rfl, rfl, ?_, ?_, ?_⟩
      · simp [applyWrite, buildUpdateData]
      · intro hnot
        exact absurd ⟨by simpa using hpair.1, by simpa using hpair.2⟩ hnot
      · intro _ _
        refine ⟨?_, ?_, ?_, ?_, ?_, ?_, ?_, ?_, ?_, ?_⟩ <;>
          first
            | (intro hv; simp [applyWrite, buildUpdateData, hv])
            | (intro v hv; simp [applyWrite, buildUpdateData, hv])
    · rw [if_neg hmatch]
      refine ⟨rfl, rfl, rfl, rfl, rfl, rfl, fun _ => rfl, ?_⟩
      intro h1 h2
      exact absurd (by simp [h1, h2]) hmatch

/-- C9 witness: the theorem instantiated on the active row `c4Rec` and a
body carrying only a progress value. -/
theorem C9_witness :
    (∀ m, buildUpdateData { progress := some 3, message := m } =
      buildUpdateData { progress := some 3 }) ∧
    ∃ r2, r2 ∈ (updateStatusRoute [c4Rec] "u1" "a4"
        { progress := some 3 }).1 ∧
      r2.id = c4Rec.id ∧ r2.user_id = c4Rec.user_id ∧
      r2.project_id = c4Rec.project_id ∧
      r2.question = c4Rec.question ∧ r2.file_ids = c4Rec.file_ids ∧
      r2.result = c4Rec.result ∧
      (¬(c4Rec.id = "a4" ∧ c4Rec.user_id = "u1") → r2 = c4Rec) ∧
      (c4Rec.id = "a4" → c4Rec.user_id = "u1" →
        (({ progress := some 3 } : UpdateStatusBody).status = none →
          r2.status = c4Rec.status) ∧
        (∀ v, ({ progress := some 3 } : UpdateStatusBody).status = some v →
          r2.status = v) ∧
        (({ progress := some 3 } : UpdateStatusBody).current_step = none →
          r2.current_step = c4Rec.current_step) ∧
        (∀ v, ({ progress := some 3 } :
            UpdateStatusBody).current_step = some v →
          r2.current_step = some v) ∧
        (({ progress := some 3 } : UpdateStatusBody).progress = none →
          r2.progress = c4Rec.progress) ∧
        (∀ v, ({ progress := some 3 } : UpdateStatusBody).progress = some v →
          r2.progress = v) ∧
        (({ progress := some 3 } : UpdateStatusBody).steps = none →
          r2.steps = c4Rec.steps) ∧
        (∀ v, ({ progress := some 3 } : UpdateStatusBody).steps = some v →
          r2.steps = v) ∧
        (({ progress := some 3 } : UpdateStatusBody).missing_data = none →
          r2.missing_data = c4Rec.missing_data) ∧
        (∀ v, ({ progress := some 3 } :
            UpdateStatusBody).missing_data = some v →
          r2.missing_data = v)) :=
  C9_update_status_partial [c4Rec] "u1" "a4" { progress := some 3 } c4Rec
    (by decide) (by decide)

/-- C10 (confirmed): the status read, the resume and the external status
update all scope their database access to the user id of the caller.  When
every row carrying the named job id belongs to a different user, the read
and the resume answer not-found without mutation, and the update-status
write leaves the table unchanged. -/
theorem C10_user_scoping (db : DB) (caller analysisId : String)
    (b : UpdateStatusBody) (data : ProvidedData) (hid : analysisId ≠ "")
    (hforeign : ∀ r ∈ db, r.id = analysisId → r.user_id ≠ caller) :
    statusRoute db caller analysisId = StatusResult.notFound ∧
    continueRoute db caller analysisId data = (db, ContinueResult.notFound) ∧
    (updateStatusRoute db caller analysisId b).1 = db := by
  have hid' : (analysisId == "") = false := by simpa using hid
  have hsel : dbSelect db analysisId caller = none := by
    rw [dbSelect, List.find?_eq_none]
    intro r hr hpred
    have hpair := Bool.and_eq_true _ _ ▸ hpred
    exact hforeign r hr (by simpa using hpair.1) (by simpa using hpair.2)
  refine ⟨?_, ?_, ?_⟩
  · simp [statusRoute, hid', hsel]
  · simp [continueRoute, hid', hsel]
  · simp only [updateStatusRoute, hid', Bool.false_eq_true, if_false]
    have hrows : ∀ x ∈ db,
        (if x.id == analysisId && x.user_id == caller then
          applyWrite x (buildUpdateData b) else x) = x := by
      intro x hx
      have : (x.id == analysisId && x.user_id == caller) = false := by
        by_cases hxid : x.id = analysisId
        · have := hforeign x hx hxid
          simp [this]
        · simp [hxid]
      rw [this]
      simp
    rw [List.map_congr_left hrows]
    simp

/-- C10 witness: the theorem instantiated with caller `alice` targeting
the job `a10` owned by `bob`. -/
theorem C10_witness :
    statusRoute [c10Rec] "alice" "a10" = StatusResult.notFound ∧
    continueRoute [c10Rec] "alice" "a10" [] =
      ([c10Rec], ContinueResult.notFound) ∧
    (updateStatusRoute [c10Rec] "alice" "a10"
      { status := some "completed" }).1 = [c10Rec] :=
  C10_user_scoping [c10Rec] "alice" "a10" { status := some "completed" } []
    (by decide) (by decide)

/-! Lemmas about the tab lifecycle operations. -/

/-- The tab id built for a record carries the `analysis-` marker. -/
theorem isAnalysisTab_tabIdOf (x : String) :
    isAnalysisTab (tabIdOf x) = true := by
  rw [isAnalysisTab, tabIdOf, String.data_append]
  exact List.isPrefixOf_iff_prefix.mpr (List.prefix_append _ _)

/-- Stripping the marker recovers the record id. -/
theorem analysisIdOfTab_tabIdOf (x : String) :
    analysisIdOfTab (tabIdOf x) = x := by
  rw [analysisIdOfTab, if_pos (isAnalysisTab_tabIdOf x), tabIdOf,
    String.drop_eq, String.data_append]
  have h9 : ("analysis-".data).length = 9 := by decide
  rw [← h9, List.drop_left]

/-- Reading back the set just saved for a project. -/
theorem closedFor_saveClosed (cl : List (String × List String))
    (p : String) (ids : List String) :
    closedFor (saveClosed cl p ids) p = ids := by
  simp [closedFor, saveClosed, List.lookup]

/-- `closeTab` on an analysis tab with an active project only extends the
closed set. -/
theorem closeTab_eq (st : ClientState) (p tabId : String)
    (hap : st.activeProjectId = some p) (htab : isAnalysisTab tabId = true) :
    closeTab st tabId =
      { st with closed :=
          saveClosed st.closed p ((closedFor st.closed p).insert tabId) } := by
  rw [closeTab, if_pos htab, hap]

/-- `reopenTab` with an active project only shrinks the closed set. -/
theorem reopenTab_eq (st : ClientState) (p tabId : String)
    (hap : st.activeProjectId = some p) :
    reopenTab st tabId =
      { st with closed :=
          saveClosed st.closed p ((closedFor st.closed p).erase tabId) } := by
  rw [reopenTab, hap]

/-- `permanentlyDeleteTab` past its guard deletes the scoped row and
shrinks the closed set of the active project. -/
theorem permanentlyDeleteTab_eq (st : ClientState) (p tabId : String)
    (hap : st.activeProjectId = some p)
    (hu : (st.userId == "") = false)
    (hid : (analysisIdOfTab tabId == "") = false) :
    permanentlyDeleteTab st tabId =
      { st with
        db := st.db.filter (fun x =>
          !(x.id == analysisIdOfTab tabId && x.user_id == st.userId))
        closed :=
          saveClosed st.closed p ((closedFor st.closed p).erase tabId) } := by
  rw [permanentlyDeleteTab]
  show (if st.userId == "" || analysisIdOfTab tabId == "" then st else _) = _
  rw [hu, hid]
  show (if (false || false) = true then st else _) = _
  rw [if_neg (by simp)]
  rw [hap]

/-- C8 (confirmed): for a completed job of the active project, closing
removes its tab from the active listing while its record stays
retrievable; reopening removes the id from the closed set and restores
the tab to the active listing; permanent deletion removes both the
record and the closed-set membership, so the closed set of the project
does not keep referencing the deleted record. -/
theorem C8_tab_lifecycle (st : ClientState) (r : AnalysisRecord) (p : String)
    (hap : st.activeProjectId = some p) (hmem : r ∈ st.db)
    (huser : r.user_id = st.userId) (hproj : r.project_id = p)
    (hstatus : r.status = "completed")
    (hnodup : (closedFor st.closed p).Nodup)
    (hu : st.userId ≠ "") (hidne : r.id ≠ "") :
    (tabIdOf r.id ∉ activeListing (closeTab st (tabIdOf r.id)) p ∧
     (closeTab st (tabIdOf r.id)).db = st.db ∧
     (dbSelect (closeTab st (tabIdOf r.id)).db r.id st.userId).isSome =
       true) ∧
    (tabIdOf r.id ∉ closedFor
       (reopenTab (closeTab st (tabIdOf r.id)) (tabIdOf r.id)).closed p ∧
     tabIdOf r.id ∈ activeListing
       (reopenTab (closeTab st (tabIdOf r.id)) (tabIdOf r.id)) p) ∧
    (dbSelect (permanentlyDeleteTab (closeTab st (tabIdOf r.id))
        (tabIdOf r.id)).db r.id st.userId = none ∧
     tabIdOf r.id ∉ closedFor
       (permanentlyDeleteTab (closeTab st (tabIdOf r.id))
         (tabIdOf r.id)).closed p) := by
  have htab := isAnalysisTab_tabIdOf r.id
  have hu' : (st.userId == "") = false := by simpa using hu
  have hid' : (analysisIdOfTab (tabIdOf r.id) == "") = false := by
    rw [analysisIdOfTab_tabIdOf]
    simpa using hidne
  rw [closeTab_eq st p (tabIdOf r.id) hap htab]
  rw [reopenTab_eq ({ st with closed := saveClosed st.closed p ((closedFor st.closed p).insert (tabIdOf r.id)) }) p (tabIdOf r.id) hap]
  rw [permanentlyDeleteTab_eq ({ st with closed := saveClosed st.closed p ((closedFor st.closed p).insert (tabIdOf r.id)) }) p (tabIdOf r.id) hap hu' hid']
  refine ⟨⟨?_, rfl, ?_⟩, ⟨?_, ?_⟩, ⟨?_, ?_⟩⟩
  · -- closed tab filtered out of the listing
    intro hin
    have hc := (List.mem_filter.mp hin).2
    have hc2 : (!((closedFor st.closed p).insert
        (tabIdOf r.id)).contains (tabIdOf r.id)) = true := by
      rw [← closedFor_saveClosed st.closed p
        ((closedFor st.closed p).insert (tabIdOf r.id))]
      exact hc
    have hmemins : tabIdOf r.id ∈
        (closedFor st.closed p).insert (tabIdOf r.id) :=
      List.mem_insert_self _ _
    have hcontains : ((closedFor st.closed p).insert
        (tabIdOf r.id)).contains (tabIdOf r.id) = true :=
      List.elem_iff.mpr hmemins
    rw [hcontains] at hc2
    simp at hc2
  · -- record still retrievable after closing
    show (dbSelect st.db r.id st.userId).isSome = true
    exact List.find?_isSome.mpr ⟨r, hmem, by simp [huser]⟩
  · -- reopening removes the id from the closed set
    show tabIdOf r.id ∉
      closedFor (saveClosed _ p
        ((closedFor (saveClosed st.closed p
            ((closedFor st.closed p).insert (tabIdOf r.id))) p).erase
          (tabIdOf r.id))) p
    rw [closedFor_saveClosed, closedFor_saveClosed]
    exact (hnodup.insert).not_mem_erase
  · -- reopening restores the tab to the active listing
    apply List.mem_filter.mpr
    constructor
    · show tabIdOf r.id ∈
        (st.db.filter (fun x =>
          x.user_id == st.userId && x.project_id == p)).map
          (fun x => tabIdOf x.id)
      exact List.mem_map_of_mem _
        (List.mem_filter.mpr ⟨hmem, by simp [huser, hproj]⟩)
    · show (!(closedFor (saveClosed _ p
          ((closedFor (saveClosed st.closed p
              ((closedFor st.closed p).insert (tabIdOf r.id))) p).erase
            (tabIdOf r.id))) p).contains (tabIdOf r.id)) = true
      rw [closedFor_saveClosed, closedFor_saveClosed]
      have hnm : tabIdOf r.id ∉
          ((closedFor st.closed p).insert (tabIdOf r.id)).erase
            (tabIdOf r.id) :=
        (hnodup.insert).not_mem_erase
      have : (((closedFor st.closed p).insert (tabIdOf r.id)).erase
          (tabIdOf r.id)).contains (tabIdOf r.id) = false :=
        Bool.eq_false_iff.mpr (fun hc => hnm (List.elem_iff.mp hc))
      rw [this]
      rfl
  · -- permanent deletion makes the scoped select fail
    show dbSelect (st.db.filter (fun x =>
        !(x.id == analysisIdOfTab (tabIdOf r.id) &&
          x.user_id == st.userId))) r.id st.userId = none
    rw [analysisIdOfTab_tabIdOf, dbSelect, List.find?_eq_none]
    intro x hx hpred
    have hxf := (List.mem_filter.mp hx).2
    rw [hpred] at hxf
    simp at hxf
  · -- permanent deletion purges the closed-set membership
    show tabIdOf r.id ∉
      closedFor (saveClosed _ p
        ((closedFor (saveClosed st.closed p
            ((closedFor st.closed p).insert (tabIdOf r.id))) p).erase
          (tabIdOf r.id))) p
    rw [closedFor_saveClosed, closedFor_saveClosed]
    exact (hnodup.insert).not_mem_erase

/-- C8 witness: the theorem instantiated on the completed job `c8Rec` in
the client state `c8St`. -/
theorem C8_witness :
    (tabIdOf c8Rec.id ∉
       activeListing (closeTab c8St (tabIdOf c8Rec.id)) "p8" ∧
     (closeTab c8St (tabIdOf c8Rec.id)).db = c8St.db ∧
     (dbSelect (closeTab c8St (tabIdOf c8Rec.id)).db c8Rec.id
       c8St.userId).isSome = true) ∧
    (tabIdOf c8Rec.id ∉ closedFor
       (reopenTab (closeTab c8St (tabIdOf c8Rec.id))
         (tabIdOf c8Rec.id)).closed "p8" ∧
     tabIdOf c8Rec.id ∈ activeListing
       (reopenTab (closeTab c8St (tabIdOf c8Rec.id))
         (tabIdOf c8Rec.id)) "p8") ∧
    (dbSelect (permanentlyDeleteTab (closeTab c8St (tabIdOf c8Rec.id))
        (tabIdOf c8Rec.id)).db c8Rec.id c8St.userId = none ∧
     tabIdOf c8Rec.id ∉ closedFor
       (permanentlyDeleteTab (closeTab c8St (tabIdOf c8Rec.id))
         (tabIdOf c8Rec.id)).closed "p8") :=
  C8_tab_lifecycle c8St c8Rec "p8" rfl (by decide) rfl rfl rfl
    (by decide) (by decide) (by decide)

end Quantis
